import Mathlib

/-!
Verification of the OAuth token lifecycle and profile-normalization logic of
the `linkedin_copilot` repository (files `app.py` and
`src/linkedin_copilot/tools/custom_tool.py`).

The Python code is shallowly embedded: JSON values become the inductive
`Json`, Python dictionaries become ordered association lists (matching
insertion-order iteration), Python exceptions become the `PyErr` error type
carried through `Except`, timestamps become integers counting seconds, and
every outbound HTTP call is modelled by passing the provider's response in
as an explicit `HttpResp` argument while the number of token-endpoint calls
made is returned explicitly.  Functions named `ct_*` embed the
`custom_tool.py` revision of class `LinkedInAuth`; functions named `app_*`
embed the `app.py` revision.
-/

/-- A JSON value, as produced by `response.json()`.  Objects are ordered
association lists so that Python's insertion-order dict iteration
(`next(iter(d.values()))`) is representable. -/
inductive Json where
  | null : Json
  | bool : Bool → Json
  | num : Int → Json
  | str : String → Json
  | arr : List Json → Json
  | obj : List (String × Json) → Json

mutual
/-- Structural equality of JSON values (Python `==` on the shapes we model). -/
def Json.beq : Json → Json → Bool
  | .null, .null => true
  | .bool a, .bool b => a == b
  | .num a, .num b => a == b
  | .str a, .str b => a == b
  | .arr a, .arr b => Json.beqList a b
  | .obj a, .obj b => Json.beqObj a b
  | _, _ => false

/-- Elementwise equality of JSON arrays. -/
def Json.beqList : List Json → List Json → Bool
  | [], [] => true
  | x :: xs, y :: ys => Json.beq x y && Json.beqList xs ys
  | _, _ => false

/-- Bindingwise equality of JSON objects. -/
def Json.beqObj : List (String × Json) → List (String × Json) → Bool
  | [], [] => true
  | (k, v) :: xs, (l, w) :: ys => k == l && Json.beq v w && Json.beqObj xs ys
  | _, _ => false
end

instance : BEq Json := ⟨Json.beq⟩

/-- The Python exception classes that the embedded code can raise. -/
inductive PyErr where
  | attributeError : PyErr
  | keyError : PyErr
  | typeError : PyErr
  | indexError : PyErr
  | valueError : PyErr
  | stopIteration : PyErr
deriving DecidableEq

/-- Python truthiness (`if x:`) restricted to JSON-shaped values:
`None`, `False`, `0`, `""`, `[]` and `{}` are falsy, everything else truthy. -/
def pyTruthy : Json → Bool
  | .null => false
  | .bool b => b
  | .num n => n != 0
  | .str s => s != ""
  | .arr xs => !xs.isEmpty
  | .obj kvs => !kvs.isEmpty

/-- Association-list lookup on a JSON object body (first binding wins,
like a Python dict built from JSON). -/
def jLookup (j : Json) (k : String) : Option Json :=
  match j with
  | .obj kvs => kvs.lookup k
  | _ => none

/-- Python `d.get(key, default)`: raises `AttributeError` when the receiver
is not a dict, otherwise never raises. -/
def pyDictGet (v : Json) (k : String) (d : Json) : Except PyErr Json :=
  match v with
  | .obj kvs => .ok ((kvs.lookup k).getD d)
  | _ => .error .attributeError

/-- Python `next(iter(d.values()))` as used on a (truthy) localized-name
map: first inserted value of a dict, `AttributeError` when the receiver has
no `.values()`, `StopIteration` on an empty dict. -/
def pyFirstValue : Json → Except PyErr Json
  | .obj [] => .error .stopIteration
  | .obj ((_, v) :: _) => .ok v
  | _ => .error .attributeError

/-- Python subscripting `v[key]` for a JSON-shaped container and a
JSON-shaped key: dict lookup (`KeyError` when absent, `TypeError` on an
unhashable key), list indexing with negative-index support
(`IndexError` out of range, `TypeError` on a non-integer key), and string
indexing returning a one-character string. -/
def pyGetItem (v : Json) (key : Json) : Except PyErr Json :=
  match v, key with
  | .obj kvs, .str k =>
    match kvs.lookup k with
    | some r => .ok r
    | none => .error .keyError
  | .obj _, .arr _ => .error .typeError
  | .obj _, .obj _ => .error .typeError
  | .obj _, _ => .error .keyError
  | .arr xs, .num i =>
    let j : Int := if i < 0 then i + xs.length else i
    if j < 0 then .error .indexError
    else
      match xs.get? j.toNat with
      | some r => .ok r
      | none => .error .indexError
  | .arr _, _ => .error .typeError
  | .str s, .num i =>
    let j : Int := if i < 0 then i + s.data.length else i
    if j < 0 then .error .indexError
    else
      match s.data.get? j.toNat with
      | some c => .ok (.str (String.mk [c]))
      | none => .error .indexError
  | .str _, _ => .error .typeError
  | _, _ => .error .typeError

/-- Whether a list of characters contains `sub` as a contiguous run
(Python `sub in s` for strings). -/
def containsSub (sub : List Char) : List Char → Bool
  | [] => sub.isEmpty
  | c :: cs => (sub.isPrefixOf (c :: cs)) || containsSub sub cs

/-- Python `x in v` for JSON-shaped values: key membership in a dict
(`TypeError` on an unhashable key), element membership in a list, substring
test in a string (`TypeError` when the left operand is not a string), and
`TypeError` on non-container receivers. -/
def pyIn (x : Json) (v : Json) : Except PyErr Bool :=
  match v with
  | .obj kvs =>
    match x with
    | .str s => .ok (kvs.any (fun kv => kv.1 == s))
    | .arr _ => .error .typeError
    | .obj _ => .error .typeError
    | _ => .ok false
  | .arr xs => .ok (xs.any (fun e => e == x))
  | .str s =>
    match x with
    | .str sub => .ok (containsSub sub.data s.data)
    | _ => .error .typeError
  | _ => .error .typeError

mutual
/-- Python `repr` of a JSON-shaped value (used by `str` on containers). -/
def pyReprJ : Json → String
  | .null => "None"
  | .bool true => "True"
  | .bool false => "False"
  | .num n => toString n
  | .str s => "'" ++ s ++ "'"
  | .arr xs => "[" ++ pyReprList xs ++ "]"
  | .obj kvs => "\x7b" ++ pyReprObj kvs ++ "\x7d"

/-- `repr` of the elements of a list, comma separated. -/
def pyReprList : List Json → String
  | [] => ""
  | [x] => pyReprJ x
  | x :: xs => pyReprJ x ++ ", " ++ pyReprList xs

/-- `repr` of the bindings of a dict, comma separated. -/
def pyReprObj : List (String × Json) → String
  | [] => ""
  | [(k, v)] => "'" ++ k ++ "': " ++ pyReprJ v
  | (k, v) :: kvs => "'" ++ k ++ "': " ++ pyReprJ v ++ ", " ++ pyReprObj kvs
end

/-- Python `str(x)` as used by f-string interpolation. -/
def pyStr : Json → String
  | .str s => s
  | v => pyReprJ v

/-- ASCII whitespace, the characters stripped by Python's `str.strip()`
on the strings this code handles. -/
def isWS (c : Char) : Bool :=
  c = ' ' || c = '\t' || c = '\n' || c = '\x0d' || c = '\x0c' || c = '\x0b'

/-- Python `s.strip()`: drop whitespace from both ends. -/
def pyStrip (s : String) : String :=
  String.mk ((((s.data.dropWhile isWS).reverse.dropWhile isWS).reverse))

/-! ## HTTP responses, tokens and sessions -/

/-- One HTTP response from the provider, as seen through the `requests`
library: the status code, the raw body text, and the result of
`response.json()` (`none` models a `JSONDecodeError`). -/
structure HttpResp where
  status : Nat
  text : String
  json : Option Json

/-- The token dictionary kept in memory by `custom_tool.py`'s
`exchange_code_for_token` (`expires_at` made optional so that
`is_token_valid`'s `'expires_at' not in token_data` check is stateable). -/
structure TokenData where
  access_token : Json
  expires_at : Option Int
  expires_in : Int
  token_type : Json

/-- The token dictionary built by `app.py`'s `exchange_code_for_token`
(no `expires_in` field in this revision). -/
structure AppToken where
  access_token : Json
  expires_at : Int
  token_type : Json

/-- The per-session Streamlit state relevant to authentication:
`st.session_state.token_data` and `st.session_state.user_profile`.
`Unauthenticated` is the state with both fields `none`. -/
structure Session where
  token_data : Option AppToken
  user_profile : Option Json

/-! ## custom_tool.py: token validity and revocation -/

/-- `custom_tool.py`, `LinkedInAuth.is_token_valid` (lines 143-148):
`false` if there is no token dictionary or it has no `expires_at` key,
otherwise `datetime.now() + timedelta(minutes=5) < expires_at`.
`now` and `expires_at` are in seconds, so the buffer is 300. -/
def is_token_valid (now : Int) (token_data : Option TokenData) : Bool :=
  match token_data with
  | none => false
  | some t =>
    match t.expires_at with
    | none => false
    | some e => decide (now + 300 < e)

/-- `app.py`, `LinkedInAuth.is_token_valid` (lines 164-168): the earlier
revision with a zero buffer. -/
def app_is_token_valid (now : Int) (token_data : Option AppToken) : Bool :=
  match token_data with
  | none => false
  | some t => decide (now < t.expires_at)

/-- `custom_tool.py`, `LinkedInAuth.revoke_token` (lines 156-157): the body
is exactly `return True`.  The session state and the count of outbound HTTP
calls are made explicit to record that the body touches neither. -/
def revoke_token (s : Session) (access_token : String) : Bool × Session × Nat :=
  (true, s, 0)

/-! ## Authorization URLs (percent-encoding and query parsing) -/

/-- The characters `urllib.parse.quote_plus` leaves unescaped:
letters, digits, `_`, `.`, `-` and `~`. -/
def isSafeChar (c : Char) : Bool :=
  ('A' ≤ c && c ≤ 'Z') || ('a' ≤ c && c ≤ 'z') || ('0' ≤ c && c ≤ '9') ||
    c = '_' || c = '.' || c = '-' || c = '~'

/-- Uppercase hexadecimal digit for a value below 16. -/
def hexDigit (n : Nat) : Char :=
  if n < 10 then Char.ofNat (48 + n) else Char.ofNat (55 + n)

/-- UTF-8 encoding of a code point, as `quote_plus` byte-encodes
non-ASCII characters. -/
def utf8Bytes (n : Nat) : List Nat :=
  if n < 128 then [n]
  else if n < 2048 then [192 + n / 64, 128 + n % 64]
  else if n < 65536 then [224 + n / 4096, 128 + (n / 64) % 64, 128 + n % 64]
  else [240 + n / 262144, 128 + (n / 4096) % 64, 128 + (n / 64) % 64, 128 + n % 64]

/-- `quote_plus` on one character: kept when safe, space becomes `+`,
anything else becomes `%XX` per UTF-8 byte. -/
def encChar (c : Char) : List Char :=
  if isSafeChar c then [c]
  else if c = ' ' then ['+']
  else (utf8Bytes c.toNat).flatMap (fun b => ['%', hexDigit (b / 16), hexDigit (b % 16)])

/-- `quote_plus` over a character list. -/
def percentEncodeL : List Char → List Char
  | [] => []
  | c :: cs => encChar c ++ percentEncodeL cs

/-- `urllib.parse.quote_plus` on a string. -/
def percentEncode (s : String) : String :=
  String.mk (percentEncodeL s.data)

/-- `urllib.parse.urlencode`: `k1=v1&k2=v2&...` with `quote_plus` applied
to every key and value. -/
def urlencode : List (String × String) → String
  | [] => ""
  | [(k, v)] => percentEncode k ++ "=" ++ percentEncode v
  | (k, v) :: ps => percentEncode k ++ "=" ++ percentEncode v ++ "&" ++ urlencode ps

/-- Configuration constants of `custom_tool.py`'s `LinkedInAuth.__init__`. -/
def ct_redirect_uri : String := "https://linkedin-copilot.streamlit.app/signin-linkedin"

/-- Scope string of `custom_tool.py`. -/
def ct_scope : String := "openid profile email w_member_social r_liteprofile w_organization_social"

/-- Authorization endpoint (both revisions). -/
def linkedin_auth_endpoint : String := "https://www.linkedin.com/oauth/v2/authorization"

/-- Configuration constants of `app.py`'s `LinkedInAuth.__init__`. -/
def app_redirect_uri : String := "https://linkedin-copilot.streamlit.app/signin-linkedin/"

/-- Scope string of `app.py`. -/
def app_scope : String := "openid profile email w_member_social r_liteprofile"

/-- `custom_tool.py`, `LinkedInAuth.get_auth_url` (lines 20-35): raises
`ValueError` when `client_id` is falsy, otherwise builds
`auth_url ? urlencode(params)` with a fixed `state` parameter. -/
def get_auth_url (client_id : String) : Except PyErr String :=
  if client_id = "" then .error .valueError
  else .ok (linkedin_auth_endpoint ++ "?" ++
    urlencode [("response_type", "code"), ("client_id", client_id),
      ("redirect_uri", ct_redirect_uri), ("scope", ct_scope),
      ("state", "linkedin_auth")])

/-- `app.py`, `LinkedInAuth.get_auth_url` (lines 43-54): no `client_id`
check and no `state` parameter in this revision. -/
def app_get_auth_url (client_id : String) : String :=
  linkedin_auth_endpoint ++ "?" ++
    urlencode [("response_type", "code"), ("client_id", client_id),
      ("redirect_uri", app_redirect_uri), ("scope", app_scope)]

/-- The characters of a URL after its first `?`. -/
def queryAfter : List Char → List Char
  | [] => []
  | c :: cs => if c = '?' then cs else queryAfter cs

/-- Split a query string at every `&`. -/
def splitAmp : List Char → List (List Char)
  | [] => [[]]
  | c :: cs =>
    if c = '&' then [] :: splitAmp cs
    else
      match splitAmp cs with
      | [] => [[c]]
      | h :: t => (c :: h) :: t

/-- Split one `key=value` field at its first `=` (no `=` means an empty
value). -/
def splitFirstEq : List Char → List Char × List Char
  | [] => ([], [])
  | c :: cs =>
    if c = '=' then ([], cs)
    else
      let p := splitFirstEq cs
      (c :: p.1, p.2)

/-- Numeric value of a hexadecimal digit. -/
def hexVal (c : Char) : Option Nat :=
  if '0' ≤ c && c ≤ '9' then some (c.toNat - 48)
  else if 'A' ≤ c && c ≤ 'F' then some (c.toNat - 55)
  else if 'a' ≤ c && c ≤ 'f' then some (c.toNat - 87)
  else none

/-- Percent-decoding of a query component (`+` becomes a space, `%XX`
becomes the byte `XX`); inverse of `quote_plus` on ASCII data. -/
def percentDecodeL : List Char → List Char
  | [] => []
  | '+' :: cs => ' ' :: percentDecodeL cs
  | '%' :: c1 :: c2 :: cs =>
    match hexVal c1, hexVal c2 with
    | some h, some l => Char.ofNat (16 * h + l) :: percentDecodeL cs
    | _, _ => '%' :: percentDecodeL (c1 :: c2 :: cs)
  | c :: cs => c :: percentDecodeL cs

/-- Decode one `key=value` field of a query string. -/
def parseField (l : List Char) : String × String :=
  let p := splitFirstEq l
  (String.mk (percentDecodeL p.1), String.mk (percentDecodeL p.2))

/-- The decoded key/value pairs of a URL's query string. -/
def urlQueryParams (url : String) : List (String × String) :=
  (splitAmp (queryAfter url.data)).map parseField

/-- First value bound to a key in a decoded query-parameter list. -/
def qlookup (k : String) : List (String × String) → Option String
  | [] => none
  | (a, b) :: ps => if a = k then some b else qlookup k ps

/-! ## Token exchange -/

/-- A diagnostic surfaced to the user (via `print`/`st.error`) on a failed
token exchange.  `httpFailed` is the `HTTPError` shown by
`st.error(f"Failed to exchange code for token: {e}")` — the string of a
`requests.HTTPError` carries the status code but not the body.
`responseBody` is the body text shown by `st.error(f"Response: ...")`.
`jsonInvalid` is the fixed message shown on a `JSONDecodeError`. -/
inductive Diag where
  | httpFailed : Nat → Diag
  | responseBody : String → Diag
  | jsonInvalid : Diag
deriving DecidableEq

/-- Result of `app.py`'s `exchange_code_for_token`: the returned token
dictionary (or `None`), the diagnostics surfaced, and how many calls were
made to the token endpoint. -/
structure ExchangeOut where
  result : Option AppToken
  diags : List Diag
  calls : Nat

/-- `app.py`, `LinkedInAuth.exchange_code_for_token` (lines 56-100).
One `requests.post` to the token endpoint; `raise_for_status` raises for a
4xx/5xx status, which is caught as a `RequestException` and surfaced.  The
second `st.error(f"Response: {e.response.text}")` is guarded by
`if hasattr(e, 'response') and e.response:` and `requests.Response.__bool__`
is `self.ok`, so for the 4xx/5xx response that raised it the guard is
falsy — modelled by the `resp.status < 400` condition.  A `JSONDecodeError`
yields the fixed invalid-response message.  On success `expires_at` is
`now + expires_in` with `expires_in` defaulting to 3600; a missing
`access_token` key raises an uncaught `KeyError` in this revision. -/
def app_exchange_code_for_token (auth_code : String) (resp : HttpResp)
    (now : Int) : Except PyErr ExchangeOut :=
  if 400 ≤ resp.status then
    .ok ⟨none,
      [Diag.httpFailed resp.status] ++
        (if resp.status < 400 then [Diag.responseBody resp.text] else []),
      1⟩
  else
    match resp.json with
    | none => .ok ⟨none, [Diag.jsonInvalid], 1⟩
    | some body =>
      match body with
      | .obj kvs =>
        match (kvs.lookup "expires_in").getD (.num 3600) with
        | .num n =>
          match kvs.lookup "access_token" with
          | some tok =>
            .ok ⟨some ⟨tok, now + n, (kvs.lookup "token_type").getD (.str "Bearer")⟩, [], 1⟩
          | none => .error .keyError
        | _ => .error .typeError
      | _ => .error .attributeError

/-- `custom_tool.py`, `LinkedInAuth.exchange_code_for_token` (lines 37-76):
raises `ValueError` when either credential is falsy (before any call);
otherwise one `requests.post`.  `RequestException` (4xx/5xx status),
`JSONDecodeError` and `KeyError` (missing `access_token`) are all caught
and turn into `None`; a non-numeric `expires_in` raises an uncaught
`TypeError` in `timedelta(seconds=...)`.  Returns the token dictionary
paired with the number of token-endpoint calls made. -/
def ct_exchange_code_for_token (client_id client_secret auth_code : String)
    (resp : HttpResp) (now : Int) : Except PyErr (Option TokenData × Nat) :=
  if client_id = "" || client_secret = "" then .error .valueError
  else if 400 ≤ resp.status then .ok (none, 1)
  else
    match resp.json with
    | none => .ok (none, 1)
    | some body =>
      match body with
      | .obj kvs =>
        match (kvs.lookup "expires_in").getD (.num 3600) with
        | .num n =>
          match kvs.lookup "access_token" with
          | some tok =>
            .ok (some ⟨tok, some (now + n), n, (kvs.lookup "token_type").getD (.str "Bearer")⟩, 1)
          | none => .ok (none, 1)
        | _ => .error .typeError
      | _ => .error .attributeError

/-! ## Profile fetch and normalization -/

/-- The `localized`/`en_US` wrapper the normalization puts around each
name field. -/
def locMap (v : Json) : Json :=
  .obj [("localized", .obj [("en_US", v)])]

/-- The legacy `profilePicture.displayImage~.elements[..].identifiers[0]`
shape the normalization builds around a `picture` URL. -/
def picShape (v : Json) : Json :=
  .obj [("displayImage~",
    .obj [("elements", .arr [.obj [("identifiers", .arr [.obj [("identifier", v)]])]])])]

/-- The legacy `elements[0].handle~.emailAddress` shape the normalization
builds around an `email` value. -/
def emailShape (v : Json) : Json :=
  .obj [("elements", .arr [.obj [("handle~", .obj [("emailAddress", v)])]])]

/-- The body of `get_user_profile`'s 200 branch (identical in
`custom_tool.py` lines 93-134 and `app.py` lines 118-158): normalize a
modern `userinfo` body into the legacy shape.  `profile_data.get` raises
`AttributeError` when the parsed body is not a JSON object;
`profilePicture` is only added when `picture` is present and truthy, and
`email` defaults to the empty string. -/
def format_user_profile (profile_data : Json) : Except PyErr Json :=
  match profile_data with
  | .obj kvs =>
    let sub := (kvs.lookup "sub").getD .null
    let gn := (kvs.lookup "given_name").getD (.str "User")
    let fn := (kvs.lookup "family_name").getD (.str "")
    let hl := (kvs.lookup "headline").getD (.str "LinkedIn User")
    let base := [("id", sub), ("firstName", locMap gn),
      ("lastName", locMap fn), ("headline", locMap hl)]
    let pic := (kvs.lookup "picture").getD .null
    let prof : Json :=
      if pyTruthy pic then .obj (base ++ [("profilePicture", picShape pic)])
      else .obj base
    let em := (kvs.lookup "email").getD (.str "")
    .ok (.obj [("profile", prof), ("email", emailShape em)])
  | _ => .error .attributeError

/-- `custom_tool.py`, `LinkedInAuth.get_user_profile` (lines 78-141):
on a 200 status the body is normalized, any other status returns `None`;
a `JSONDecodeError` is a `requests` exception and is caught into `None`. -/
def ct_get_user_profile (resp : HttpResp) : Except PyErr (Option Json) :=
  if resp.status = 200 then
    match resp.json with
    | none => .ok none
    | some body => (format_user_profile body).map some
  else .ok none

/-- `app.py`, `LinkedInAuth.get_user_profile` (lines 102-162): same
normalization behind `raise_for_status` (4xx/5xx caught into `None`). -/
def app_get_user_profile (resp : HttpResp) : Except PyErr (Option Json) :=
  if 400 ≤ resp.status then .ok none
  else
    match resp.json with
    | none => .ok none
    | some body => (format_user_profile body).map some

/-! ## Extraction helpers (custom_tool.py lines 159-190) -/

/-- The guarded first-value read
`next(iter(m.values())) if m else default`. -/
def truthyFirstValue (v d : Json) : Except PyErr Json :=
  if pyTruthy v then pyFirstValue v else pure d

/-- The `try` body of `get_user_display_name`: the two `.get` chains, the
truthiness-guarded `next(iter(...values()))` reads, and the stripped
f-string. -/
def display_name_body (profile_data : Json) : Except PyErr String :=
  pyDictGet profile_data "firstName" (.obj []) >>= fun fn0 =>
  pyDictGet fn0 "localized" (.obj []) >>= fun first =>
  pyDictGet profile_data "lastName" (.obj []) >>= fun ln0 =>
  pyDictGet ln0 "localized" (.obj []) >>= fun last =>
  truthyFirstValue first (.str "User") >>= fun fv =>
  truthyFirstValue last (.str "") >>= fun lv =>
  pure (pyStrip (pyStr fv ++ " " ++ pyStr lv))

/-- The exceptions caught by `get_user_display_name`'s `except` clause. -/
def caughtAK (e : PyErr) : Bool :=
  e = .attributeError || e = .keyError

/-- The exceptions caught by `get_user_email` and
`get_profile_picture_url`. -/
def caughtKIT (e : PyErr) : Bool :=
  e = .keyError || e = .indexError || e = .typeError

/-- The exceptions `get_profile_picture_url`'s `try` body can raise: the
caught three plus the uncaught `AttributeError`. -/
def caughtKITA (e : PyErr) : Bool :=
  caughtKIT e || e = .attributeError

/-- `custom_tool.py`, `LinkedInAuth.get_user_display_name`
(lines 159-168): the body with `AttributeError` and `KeyError` caught into
the `"LinkedIn User"` default; any other exception propagates. -/
def get_user_display_name (profile_data : Json) : Except PyErr String :=
  match display_name_body profile_data with
  | .ok s => .ok s
  | .error e => if caughtAK e then .ok "LinkedIn User" else .error e

/-- The `try` body of `get_user_email`: the short-circuiting
`'elements' in email_data and email_data['elements']` test and the
subscript chain. -/
def email_body (email_data : Json) : Except PyErr (Option Json) :=
  pyIn (.str "elements") email_data >>= fun c =>
  if c then
    pyGetItem email_data (.str "elements") >>= fun els =>
    if pyTruthy els then
      pyGetItem els (.num 0) >>= fun e0 =>
      pyGetItem e0 (.str "handle~") >>= fun h =>
      pyGetItem h (.str "emailAddress") >>= fun a =>
      pure (some a)
    else pure none
  else pure none

/-- `custom_tool.py`, `LinkedInAuth.get_user_email` (lines 170-177):
`KeyError`, `IndexError` and `TypeError` are caught into `None`. -/
def get_user_email (email_data : Json) : Except PyErr (Option Json) :=
  match email_body email_data with
  | .ok v => .ok v
  | .error e => if caughtKIT e then .ok none else .error e

/-- The `try` body of `get_profile_picture_url`: note that
`picture_data['displayImage~'].get('elements', [])` calls `.get` on
whatever value is stored under `displayImage~`, raising `AttributeError`
when it is not a dict. -/
def picture_body (profile_data : Json) : Except PyErr (Option Json) :=
  pyDictGet profile_data "profilePicture" (.obj []) >>= fun picture_data =>
  pyIn (.str "displayImage~") picture_data >>= fun c =>
  if c then
    pyGetItem picture_data (.str "displayImage~") >>= fun di =>
    pyDictGet di "elements" (.arr []) >>= fun elements =>
    if pyTruthy elements then
      pyGetItem elements (.num (-1)) >>= fun lastEl =>
      pyGetItem lastEl (.str "identifiers") >>= fun ids =>
      pyGetItem ids (.num 0) >>= fun i0 =>
      pyGetItem i0 (.str "identifier") >>= fun r =>
      pure (some r)
    else pure none
  else pure none

/-- `custom_tool.py`, `LinkedInAuth.get_profile_picture_url`
(lines 179-190): only `KeyError`, `IndexError` and `TypeError` are caught
into `None`; an `AttributeError` from the inner `.get` propagates. -/
def get_profile_picture_url (profile_data : Json) : Except PyErr (Option Json) :=
  match picture_body profile_data with
  | .ok v => .ok v
  | .error e => if caughtKIT e then .ok none else .error e

/-! ## The OAuth callback handler -/

/-- Result of `handle_oauth_callback`: the boolean it returns, the session
state afterwards, and the number of token-endpoint calls made. -/
structure CallbackOut where
  returned : Bool
  sess : Session
  tokenCalls : Nat

/-- `app.py`, `handle_oauth_callback` (lines 229-273).  `query_params` is
the callback's decoded query string.  When a `code` is present the `state`
parameter is compared against the fixed anti-forgery token
`'linkedin_auth'`; on mismatch the handler errors out before any token
exchange.  Otherwise the code is exchanged (one call), the token stored,
and the profile fetched; the token/profile HTTP responses are passed in
explicitly. -/
def handle_oauth_callback (query_params : List (String × String)) (s : Session)
    (tokResp profResp : HttpResp) (now : Int) : Except PyErr CallbackOut :=
  match qlookup "code" query_params with
  | some code =>
    let state := qlookup "state" query_params
    if state ≠ some "linkedin_auth" then .ok ⟨false, s, 0⟩
    else do
      let ex ← app_exchange_code_for_token code tokResp now
      match ex.result with
      | some td =>
        let s1 : Session := ⟨some td, s.user_profile⟩
        let p ← app_get_user_profile profResp
        match p with
        | some prof => .ok ⟨true, ⟨some td, some prof⟩, ex.calls⟩
        | none => .ok ⟨false, s1, ex.calls⟩
      | none => .ok ⟨false, s, ex.calls⟩
  | none => .ok ⟨false, s, 0⟩

/-- Whether a JSON value is an object (a Python dict). -/
def Json.isObj : Json → Bool
  | .obj _ => true
  | _ => false

/-- Classification of an embedded computation: it either succeeds, or fails
with an exception satisfying `P` (used to show a `try` body only raises
exceptions its `except` clause lists). -/
def okOrErr {α : Type} (x : Except PyErr α) (P : PyErr → Bool) : Prop :=
  (∃ r, x = .ok r) ∨ (∃ e, x = .error e ∧ P e = true)

/-! ## Helper lemmas -/

/-- Reducing `Except` bind on a success. -/
theorem ebind_ok {α β : Type} (a : α) (f : α → Except PyErr β) :
    (Except.ok a >>= f) = f a := rfl

/-- Reducing `Except` bind on an error. -/
theorem ebind_error {α β : Type} (e : PyErr) (f : α → Except PyErr β) :
    ((Except.error e : Except PyErr α) >>= f) = .error e := rfl

/-- A stripped string is unchanged when it neither starts nor ends with
whitespace. -/
theorem pyStrip_append_space (a b : String)
    (ha : ∃ c cs, a.data = c :: cs ∧ isWS c = false)
    (hb : ∃ c cs, b.data.reverse = c :: cs ∧ isWS c = false) :
    pyStrip (a ++ " " ++ b) = a ++ " " ++ b := by
  obtain ⟨c, cs, hac, hcw⟩ := ha
  obtain ⟨d, ds, hbd, hdw⟩ := hb
  have hdata : (a ++ " " ++ b).data = a.data ++ ' ' :: b.data := by
    rw [String.data_append, String.data_append]
    simp
  have hl : (a ++ " " ++ b).data = c :: (cs ++ ' ' :: b.data) := by
    rw [hdata, hac, List.cons_append]
  have h1 : ((a ++ " " ++ b).data).dropWhile isWS = (a ++ " " ++ b).data := by
    rw [hl, List.dropWhile_cons, hcw]
    simp
  have hrev : ((a ++ " " ++ b).data).reverse = d :: (ds ++ ' ' :: a.data.reverse) := by
    rw [hdata, List.reverse_append, List.reverse_cons, hbd]
    simp
  have h2 : (((a ++ " " ++ b).data).reverse).dropWhile isWS = ((a ++ " " ++ b).data).reverse := by
    rw [hrev, List.dropWhile_cons, hdw]
    simp
  unfold pyStrip
  rw [h1, h2, List.reverse_reverse]

/-! ## C1: token validity with the 5-minute buffer -/

/-- C1.  `custom_tool.py`'s `is_token_valid` returns `true` exactly when a
token dictionary is present, carries an `expires_at`, and the current time
is strictly before `expires_at` minus the 5-minute (300-second) buffer; in
particular it returns `false` when the record is absent or lacks
`expires_at`, and `false` at the boundary instant `expires_at - 300`
itself. -/
theorem is_token_valid_iff (now : Int) (td : Option TokenData) :
    is_token_valid now td = true ↔
      ∃ t e, td = some t ∧ t.expires_at = some e ∧ now < e - 300 := by
  cases td with
  | none => simp [is_token_valid]
  | some t =>
    cases h : t.expires_at with
    | none => simp [is_token_valid, h]
    | some e =>
      simp only [is_token_valid, h, Option.some.injEq, decide_eq_true_eq]
      constructor
      · intro hlt
        exact ⟨t, e, rfl, h, by omega⟩
      · rintro ⟨t', e', ht', he', hlt⟩
        subst ht'
        rw [h] at he'
        cases he'
        omega

/-! ## C10: token revocation is a pure no-op -/

/-- C10.  `revoke_token` returns `True` for every access token, leaves the
session untouched and performs no outbound HTTP call. -/
theorem revoke_token_spec (s : Session) (access_token : String) :
    revoke_token s access_token = (true, s, 0) := rfl

/-! ## C4: a state-mismatched callback is rejected before any exchange -/

/-- C4.  When the callback carries a `code` but its `state` parameter is
anything other than the expected anti-forgery token `'linkedin_auth'`
(including absent), `handle_oauth_callback` returns `False` with the
session exactly as it was — in particular an `Unauthenticated` session
stays `Unauthenticated` — and the token-exchange endpoint is called zero
times. -/
theorem callback_state_mismatch (query_params : List (String × String))
    (s : Session) (tokResp profResp : HttpResp) (now : Int) (code : String)
    (hcode : qlookup "code" query_params = some code)
    (hstate : qlookup "state" query_params ≠ some "linkedin_auth")
    (htok : s.token_data = none) (hprof : s.user_profile = none) :
    handle_oauth_callback query_params s tokResp profResp now =
      .ok ⟨false, s, 0⟩ := by
  unfold handle_oauth_callback
  rw [hcode]
  simp [hstate]

/-- Witness for C4: a concrete callback with a forged `state` against an
unauthenticated session. -/
theorem callback_state_mismatch_witness :
    handle_oauth_callback [("code", "abc"), ("state", "evil")]
      ⟨none, none⟩ ⟨200, "", none⟩ ⟨200, "", none⟩ 0 =
      .ok ⟨false, ⟨none, none⟩, 0⟩ :=
  callback_state_mismatch [("code", "abc"), ("state", "evil")]
    ⟨none, none⟩ ⟨200, "", none⟩ ⟨200, "", none⟩ 0 "abc"
    rfl (by decide) rfl rfl

/-! ## C5: failed token exchange -/

/-- Supporting fact: on a non-success status or malformed JSON body,
`app.py`'s `exchange_code_for_token` returns `None` after exactly one call
to the token endpoint (no retry). -/
theorem app_exchange_failure_none (auth_code : String) (resp : HttpResp)
    (now : Int) (h : 400 ≤ resp.status ∨ resp.json = none) :
    ∃ ds, app_exchange_code_for_token auth_code resp now = .ok ⟨none, ds, 1⟩ := by
  unfold app_exchange_code_for_token
  by_cases hs : 400 ≤ resp.status
  · rw [if_pos hs]
    exact ⟨_, rfl⟩
  · rw [if_neg hs]
    have hj : resp.json = none := h.resolve_left hs
    rw [hj]
    exact ⟨_, rfl⟩

/-- Supporting fact: when the exchange fails this way during a callback
whose `code` and `state` are valid, the handler returns `False`, leaves the
session exactly as it was (an `Unauthenticated` session stays
`Unauthenticated`), and the token endpoint was called exactly once. -/
theorem callback_exchange_failure (query_params : List (String × String))
    (s : Session) (tokResp profResp : HttpResp) (now : Int) (code : String)
    (hcode : qlookup "code" query_params = some code)
    (hstate : qlookup "state" query_params = some "linkedin_auth")
    (hfail : 400 ≤ tokResp.status ∨ tokResp.json = none) :
    handle_oauth_callback query_params s tokResp profResp now =
      .ok ⟨false, s, 1⟩ := by
  obtain ⟨ds, hex⟩ := app_exchange_failure_none code tokResp now hfail
  unfold handle_oauth_callback
  rw [hcode]
  simp [hstate, hex, ebind_ok]

/-- C5 (divergence witness).  With a token-endpoint reply of HTTP 400 and
body `"err_body"`, the exchange returns `None` after one call, but the only
diagnostic surfaced is the `HTTPError` message carrying the status: the
response body appears in no diagnostic, because the `st.error` line that
would print it is guarded by the always-falsy `e.response` truthiness
check. -/
theorem app_exchange_http400_no_body_diag :
    app_exchange_code_for_token "c" ⟨400, "err_body", none⟩ 0 =
      .ok ⟨none, [Diag.httpFailed 400], 1⟩ ∧
    Diag.responseBody "err_body" ∉ [Diag.httpFailed 400] :=
  ⟨rfl, by decide⟩

/-! ## C6: successful token exchange computes the expiry -/

/-- C6.  On a successful token-endpoint reply (status below 400, valid JSON
object body containing `access_token`), `custom_tool.py`'s
`exchange_code_for_token` makes exactly one call and returns a token
dictionary whose `expires_at` is the current time plus the reply's
`expires_in`, with `expires_in` read from the body and defaulting to 3600
seconds when the field is absent. -/
theorem ct_exchange_expires_at (client_id client_secret auth_code : String)
    (resp : HttpResp) (now : Int) (kvs : List (String × Json)) (tok : Json)
    (n : Int)
    (hid : client_id ≠ "") (hsec : client_secret ≠ "")
    (hst : resp.status < 400)
    (hjson : resp.json = some (.obj kvs))
    (htok : kvs.lookup "access_token" = some tok)
    (hei : (kvs.lookup "expires_in").getD (.num 3600) = .num n) :
    ct_exchange_code_for_token client_id client_secret auth_code resp now =
      .ok (some ⟨tok, some (now + n), n,
        (kvs.lookup "token_type").getD (.str "Bearer")⟩, 1) ∧
      (kvs.lookup "expires_in" = none → n = 3600) := by
  constructor
  · unfold ct_exchange_code_for_token
    rw [if_neg, if_neg, hjson]
    · simp only [hei, htok]
    · omega
    · simp [hid, hsec]
  · intro habs
    rw [habs] at hei
    simp only [Option.getD_none, Json.num.injEq] at hei
    omega

/-- Witness for C6: a reply with no `expires_in` field defaults to 3600
seconds, so at time 50 the expiry is 3650. -/
theorem ct_exchange_expires_at_witness :
    ct_exchange_code_for_token "i" "s" "c"
      ⟨200, "", some (.obj [("access_token", .str "T")])⟩ 50 =
      .ok (some ⟨.str "T", some 3650, 3600, .str "Bearer"⟩, 1) :=
  (ct_exchange_expires_at "i" "s" "c"
    ⟨200, "", some (.obj [("access_token", .str "T")])⟩ 50
    [("access_token", .str "T")] (.str "T") 3600
    (by decide) (by decide) (by decide) rfl rfl rfl).1

/-! ## C3, C7, C8: profile normalization and extraction -/

/-- C3.  For a modern `userinfo` body carrying `sub`, `given_name`,
`family_name` and `email`, a successful `get_user_profile` yields a
normalized record whose `id` is the `sub` value, whose extracted display
name is the given name, a space and the family name, and whose extracted
email is the `email` value.  (The names may not begin or end in whitespace,
since the code strips the assembled full name.) -/
theorem modern_profile_normalization (sub gn fn em : String)
    (hg : ∃ c cs, gn.data = c :: cs ∧ isWS c = false)
    (hf : ∃ c cs, fn.data.reverse = c :: cs ∧ isWS c = false) :
    ∃ res prof eml,
      ct_get_user_profile ⟨200, "",
        some (.obj [("sub", .str sub), ("given_name", .str gn),
          ("family_name", .str fn), ("email", .str em)])⟩ = .ok (some res) ∧
      jLookup res "profile" = some prof ∧
      jLookup prof "id" = some (.str sub) ∧
      get_user_display_name prof = .ok (gn ++ " " ++ fn) ∧
      jLookup res "email" = some eml ∧
      get_user_email eml = .ok (some (.str em)) := by
  refine ⟨.obj [("profile", .obj [("id", .str sub), ("firstName", locMap (.str gn)),
      ("lastName", locMap (.str fn)), ("headline", locMap (.str "LinkedIn User"))]),
      ("email", emailShape (.str em))],
    .obj [("id", .str sub), ("firstName", locMap (.str gn)),
      ("lastName", locMap (.str fn)), ("headline", locMap (.str "LinkedIn User"))],
    emailShape (.str em), rfl, rfl, rfl, ?_, rfl, rfl⟩
  have hbody : get_user_display_name (.obj [("id", .str sub),
      ("firstName", locMap (.str gn)), ("lastName", locMap (.str fn)),
      ("headline", locMap (.str "LinkedIn User"))]) =
      .ok (pyStrip (gn ++ " " ++ fn)) := rfl
  rw [hbody, pyStrip_append_space gn fn hg hf]

/-- Witness for C3 at the spec's example: `sub="123"`, `given_name="Ada"`,
`family_name="Lovelace"`, `email="a@x.com"`. -/
theorem modern_profile_normalization_witness :
    ∃ res prof eml,
      ct_get_user_profile ⟨200, "",
        some (.obj [("sub", .str "123"), ("given_name", .str "Ada"),
          ("family_name", .str "Lovelace"), ("email", .str "a@x.com")])⟩ =
        .ok (some res) ∧
      jLookup res "profile" = some prof ∧
      jLookup prof "id" = some (.str "123") ∧
      get_user_display_name prof = .ok ("Ada" ++ " " ++ "Lovelace") ∧
      jLookup res "email" = some eml ∧
      get_user_email eml = .ok (some (.str "a@x.com")) :=
  modern_profile_normalization "123" "Ada" "Lovelace" "a@x.com"
    ⟨'A', ['d', 'a'], rfl, rfl⟩ ⟨'e', ['c', 'a', 'l', 'e', 'v', 'o', 'L'], rfl, rfl⟩

/-- C7.  The extraction helpers are shape-invariant: applied to a
legacy-shaped profile (`firstName.localized.en_US`, `lastName.localized.en_US`)
and a legacy email blob (`elements[0].handle~.emailAddress`), they return
exactly the same display name and email as they do on the normalized form
of the modern `userinfo` response with the same given name, family name and
email. -/
theorem legacy_modern_extraction_agree (sub gn fn em : String) :
    ∃ res prof eml,
      ct_get_user_profile ⟨200, "",
        some (.obj [("sub", .str sub), ("given_name", .str gn),
          ("family_name", .str fn), ("email", .str em)])⟩ = .ok (some res) ∧
      jLookup res "profile" = some prof ∧
      jLookup res "email" = some eml ∧
      get_user_display_name (.obj [("firstName", .obj [("localized", .obj [("en_US", .str gn)])]),
        ("lastName", .obj [("localized", .obj [("en_US", .str fn)])])]) =
        get_user_display_name prof ∧
      get_user_email (.obj [("elements", .arr [.obj [("handle~",
        .obj [("emailAddress", .str em)])]])]) = get_user_email eml :=
  ⟨.obj [("profile", .obj [("id", .str sub), ("firstName", locMap (.str gn)),
      ("lastName", locMap (.str fn)), ("headline", locMap (.str "LinkedIn User"))]),
      ("email", emailShape (.str em))],
    .obj [("id", .str sub), ("firstName", locMap (.str gn)),
      ("lastName", locMap (.str fn)), ("headline", locMap (.str "LinkedIn User"))],
    emailShape (.str em), rfl, rfl, rfl, rfl, rfl⟩

/-- C8.  For a successful profile response whose body lacks the optional
`picture` and `email` fields, `get_user_profile` still returns a normalized
record (no exception, not `None`); the picture is absent (no
`profilePicture` key) and the extracted email is the empty string. -/
theorem profile_missing_optional_fields (sub gn fn : String) :
    ∃ res prof eml,
      ct_get_user_profile ⟨200, "",
        some (.obj [("sub", .str sub), ("given_name", .str gn),
          ("family_name", .str fn)])⟩ = .ok (some res) ∧
      jLookup res "profile" = some prof ∧
      jLookup prof "profilePicture" = none ∧
      jLookup res "email" = some eml ∧
      get_user_email eml = .ok (some (.str "")) :=
  ⟨.obj [("profile", .obj [("id", .str sub), ("firstName", locMap (.str gn)),
      ("lastName", locMap (.str fn)), ("headline", locMap (.str "LinkedIn User"))]),
      ("email", emailShape (.str ""))],
    .obj [("id", .str sub), ("firstName", locMap (.str gn)),
      ("lastName", locMap (.str fn)), ("headline", locMap (.str "LinkedIn User"))],
    emailShape (.str ""), rfl, rfl, rfl, rfl, rfl⟩

/-! ## C9: totality of the projection helpers -/

/-- Succeeding values are classified successes, and errors are classified
by the error predicate they satisfy. -/
theorem okOrErr_of_errors {α : Type} (x : Except PyErr α) (P : PyErr → Bool)
    (h : ∀ e, x = .error e → P e = true) : okOrErr x P := by
  cases x with
  | ok r => exact .inl ⟨r, rfl⟩
  | error e => exact .inr ⟨e, rfl, h e rfl⟩

/-- Classification is preserved by sequencing. -/
theorem okOrErr_bind {α β : Type} {x : Except PyErr α} {f : α → Except PyErr β}
    {P : PyErr → Bool} (hx : okOrErr x P) (hf : ∀ a, okOrErr (f a) P) :
    okOrErr (x >>= f) P := by
  rcases hx with ⟨r, h⟩ | ⟨e, h, hp⟩
  · rw [h, ebind_ok]
    exact hf r
  · rw [h, ebind_error]
    exact .inr ⟨e, rfl, hp⟩

/-- A pure value is a classified success. -/
theorem okOrErr_pure {α : Type} (a : α) (P : PyErr → Bool) :
    okOrErr (pure a : Except PyErr α) P := .inl ⟨a, rfl⟩

/-- `d.get(...)` can only raise `AttributeError`. -/
theorem okOrErr_pyDictGet (v : Json) (k : String) (d : Json) (P : PyErr → Bool)
    (hP : P .attributeError = true) : okOrErr (pyDictGet v k d) P := by
  cases v <;> first
    | exact .inl ⟨_, rfl⟩
    | exact .inr ⟨.attributeError, rfl, hP⟩

/-- `x in v` can only raise `TypeError`. -/
theorem okOrErr_pyIn (x v : Json) (P : PyErr → Bool)
    (hP : P .typeError = true) : okOrErr (pyIn x v) P := by
  cases v <;> cases x <;> first
    | exact .inl ⟨_, rfl⟩
    | exact .inr ⟨.typeError, rfl, hP⟩

/-- Subscripting can only raise `KeyError`, `IndexError` or `TypeError`. -/
theorem okOrErr_pyGetItem (v k : Json) (P : PyErr → Bool)
    (hkey : P .keyError = true) (hidx : P .indexError = true)
    (htype : P .typeError = true) : okOrErr (pyGetItem v k) P := by
  apply okOrErr_of_errors
  intro e he
  cases v <;> cases k <;> simp only [pyGetItem] at he <;>
    repeat' first
      | assumption
      | (cases he)
      | (split at he)

/-- The truthiness-guarded first-value read can only raise
`AttributeError`: the empty dict (the `StopIteration` case of
`next(iter(...))`) is excluded by the guard. -/
theorem okOrErr_truthyFirstValue (v d : Json) (P : PyErr → Bool)
    (hP : P .attributeError = true) :
    okOrErr (truthyFirstValue v d) P := by
  unfold truthyFirstValue
  cases hv : pyTruthy v
  · simp only [Bool.false_eq_true, if_false]
    exact okOrErr_pure d P
  · simp only [if_true]
    cases v with
    | obj kvs =>
      cases kvs with
      | nil => simp [pyTruthy] at hv
      | cons q l => exact .inl ⟨q.2, rfl⟩
    | null => simp [pyTruthy] at hv
    | bool b => exact .inr ⟨.attributeError, rfl, hP⟩
    | num n => exact .inr ⟨.attributeError, rfl, hP⟩
    | str s => exact .inr ⟨.attributeError, rfl, hP⟩
    | arr xs => exact .inr ⟨.attributeError, rfl, hP⟩

/-- The display-name `try` body only raises exceptions its `except`
clause catches. -/
theorem display_body_classify (p : Json) :
    okOrErr (display_name_body p) caughtAK := by
  unfold display_name_body
  apply okOrErr_bind (okOrErr_pyDictGet p "firstName" (.obj []) caughtAK rfl)
  intro fn0
  apply okOrErr_bind (okOrErr_pyDictGet fn0 "localized" (.obj []) caughtAK rfl)
  intro first
  apply okOrErr_bind (okOrErr_pyDictGet p "lastName" (.obj []) caughtAK rfl)
  intro ln0
  apply okOrErr_bind (okOrErr_pyDictGet ln0 "localized" (.obj []) caughtAK rfl)
  intro last
  apply okOrErr_bind (okOrErr_truthyFirstValue first (.str "User") caughtAK rfl)
  intro fv
  apply okOrErr_bind (okOrErr_truthyFirstValue last (.str "") caughtAK rfl)
  intro lv
  exact okOrErr_pure _ _

/-- The email `try` body only raises exceptions its `except` clause
catches. -/
theorem email_body_classify (p : Json) :
    okOrErr (email_body p) caughtKIT := by
  unfold email_body
  apply okOrErr_bind (okOrErr_pyIn (.str "elements") p caughtKIT rfl)
  intro c
  cases c
  · simp only [Bool.false_eq_true, if_false]
    exact okOrErr_pure _ _
  · simp only [if_true]
    apply okOrErr_bind (okOrErr_pyGetItem p (.str "elements") caughtKIT rfl rfl rfl)
    intro els
    cases hels : pyTruthy els
    · simp only [Bool.false_eq_true, if_false]
      exact okOrErr_pure _ _
    · simp only [if_true]
      apply okOrErr_bind (okOrErr_pyGetItem els (.num 0) caughtKIT rfl rfl rfl)
      intro e0
      apply okOrErr_bind (okOrErr_pyGetItem e0 (.str "handle~") caughtKIT rfl rfl rfl)
      intro h
      apply okOrErr_bind (okOrErr_pyGetItem h (.str "emailAddress") caughtKIT rfl rfl rfl)
      intro a
      exact okOrErr_pure _ _

/-- The picture `try` body raises at most the three caught exceptions plus
`AttributeError` (from the `.get` on the `displayImage~` value). -/
theorem picture_body_classify (p : Json) :
    okOrErr (picture_body p) caughtKITA := by
  unfold picture_body
  apply okOrErr_bind (okOrErr_pyDictGet p "profilePicture" (.obj []) caughtKITA rfl)
  intro pd
  apply okOrErr_bind (okOrErr_pyIn (.str "displayImage~") pd caughtKITA rfl)
  intro c
  cases c
  · simp only [Bool.false_eq_true, if_false]
    exact okOrErr_pure _ _
  · simp only [if_true]
    apply okOrErr_bind (okOrErr_pyGetItem pd (.str "displayImage~") caughtKITA rfl rfl rfl)
    intro di
    apply okOrErr_bind (okOrErr_pyDictGet di "elements" (.arr []) caughtKITA rfl)
    intro elements
    cases hels : pyTruthy elements
    · simp only [Bool.false_eq_true, if_false]
      exact okOrErr_pure _ _
    · simp only [if_true]
      apply okOrErr_bind (okOrErr_pyGetItem elements (.num (-1)) caughtKITA rfl rfl rfl)
      intro lastEl
      apply okOrErr_bind (okOrErr_pyGetItem lastEl (.str "identifiers") caughtKITA rfl rfl rfl)
      intro ids
      apply okOrErr_bind (okOrErr_pyGetItem ids (.num 0) caughtKITA rfl rfl rfl)
      intro i0
      apply okOrErr_bind (okOrErr_pyGetItem i0 (.str "identifier") caughtKITA rfl rfl rfl)
      intro r
      exact okOrErr_pure _ _

/-- C9 counterexample.  On the dictionary input
`{'profilePicture': {'displayImage~': 'oops'}}` the helper
`get_profile_picture_url` raises `AttributeError` (the `.get` call on the
string `'oops'`), which its `except (KeyError, IndexError, TypeError)`
clause does not catch — so the helpers are not all raise-free on every
dictionary input. -/
theorem picture_url_raises_attribute_error :
    get_profile_picture_url (.obj [("profilePicture",
      .obj [("displayImage~", .str "oops")])]) = .error .attributeError := rfl

/-- C9 (amended).  On every dictionary input, `get_user_display_name` and
`get_user_email` never raise (they return a value, defaulting to
`"LinkedIn User"` / `None` on a caught failure), and
`get_profile_picture_url` either returns a value or raises exactly
`AttributeError` — the one exception its `except` clause omits, reachable
when the `displayImage~` value is not a dict. -/
theorem extraction_helpers_totality (p : Json) (hobj : p.isObj = true) :
    (∃ s, get_user_display_name p = .ok s) ∧
    (∃ v, get_user_email p = .ok v) ∧
    ((∃ v, get_profile_picture_url p = .ok v) ∨
      get_profile_picture_url p = .error .attributeError) := by
  refine ⟨?_, ?_, ?_⟩
  · rcases display_body_classify p with ⟨s, hs⟩ | ⟨e, he, hp⟩
    · exact ⟨s, by simp [get_user_display_name, hs]⟩
    · exact ⟨"LinkedIn User", by simp [get_user_display_name, he, hp]⟩
  · rcases email_body_classify p with ⟨v, hv⟩ | ⟨e, he, hp⟩
    · exact ⟨v, by simp [get_user_email, hv]⟩
    · exact ⟨none, by simp [get_user_email, he, hp]⟩
  · rcases picture_body_classify p with ⟨v, hv⟩ | ⟨e, he, hp⟩
    · exact .inl ⟨v, by simp [get_profile_picture_url, hv]⟩
    · cases hk : caughtKIT e
      · have hea : e = .attributeError := by
          cases e <;> simp_all [caughtKITA, caughtKIT]
        subst hea
        right
        simp [get_profile_picture_url, he, caughtKIT]
      · exact .inl ⟨none, by simp [get_profile_picture_url, he, hk]⟩

/-- Witness for C9 at the empty dictionary. -/
theorem extraction_helpers_totality_witness :
    (∃ s, get_user_display_name (.obj []) = .ok s) ∧
    (∃ v, get_user_email (.obj []) = .ok v) ∧
    ((∃ v, get_profile_picture_url (.obj []) = .ok v) ∨
      get_profile_picture_url (.obj []) = .error .attributeError) :=
  extraction_helpers_totality (.obj []) rfl

/-! ## C2: the authorization URL -/

/-- A character's code point is below the Unicode bound. -/
theorem char_toNat_lt (c : Char) : c.toNat < 1114112 := by
  have h := c.valid
  rcases h with h | ⟨h1, h2⟩
  · exact Nat.lt_trans h (by norm_num)
  · exact h2

/-- UTF-8 encoding of a valid code point produces bytes. -/
theorem utf8Bytes_lt (n : Nat) (hn : n < 1114112) :
    ∀ b ∈ utf8Bytes n, b < 256 := by
  intro b hb
  unfold utf8Bytes at hb
  split at hb
  · simp at hb
    omega
  · split at hb
    · simp at hb
      rcases hb with h | h <;> omega
    · split at hb
      · simp at hb
        rcases hb with h | h | h <;> omega
      · simp at hb
        rcases hb with h | h | h | h <;> omega

/-- Hexadecimal digits are never the query metacharacters `&` or `=`. -/
theorem hexDigit_ne_amp_eq : ∀ m, m < 16 → hexDigit m ≠ '&' ∧ hexDigit m ≠ '=' := by
  decide

/-- `quote_plus` never emits `&` or `=` for a single character. -/
theorem encChar_not_mem (c : Char) : '&' ∉ encChar c ∧ '=' ∉ encChar c := by
  unfold encChar
  split
  case isTrue hsafe =>
    constructor <;> intro hm <;> simp at hm <;> subst hm <;>
      simp [isSafeChar] at hsafe
  case isFalse hsafe =>
    split
    case isTrue hsp => decide
    case isFalse hsp =>
      have hbnd : ∀ b ∈ utf8Bytes c.toNat, b < 256 :=
        utf8Bytes_lt c.toNat (char_toNat_lt c)
      constructor <;> intro hm <;> rw [List.mem_flatMap] at hm <;>
        obtain ⟨b, hb, hmem⟩ := hm <;> have hblt := hbnd b hb <;>
        simp only [List.mem_cons, List.not_mem_nil, or_false] at hmem
      · rcases hmem with h | h | h
        · exact absurd h (by decide)
        · exact (hexDigit_ne_amp_eq (b / 16) (by omega)).1 h.symm
        · exact (hexDigit_ne_amp_eq (b % 16) (by omega)).1 h.symm
      · rcases hmem with h | h | h
        · exact absurd h (by decide)
        · exact (hexDigit_ne_amp_eq (b / 16) (by omega)).2 h.symm
        · exact (hexDigit_ne_amp_eq (b % 16) (by omega)).2 h.symm

/-- `quote_plus` never emits `&` or `=` anywhere in its output, so encoded
components cannot break the query structure. -/
theorem percentEncodeL_not_mem (l : List Char) :
    '&' ∉ percentEncodeL l ∧ '=' ∉ percentEncodeL l := by
  induction l with
  | nil => simp [percentEncodeL]
  | cons c cs ih =>
    have hc := encChar_not_mem c
    constructor <;> intro hm <;>
      rw [percentEncodeL, List.mem_append] at hm <;>
      rcases hm with h | h
    · exact hc.1 h
    · exact ih.1 h
    · exact hc.2 h
    · exact ih.2 h

/-- An ampersand-free string is a single query field. -/
theorem splitAmp_no_amp (xs : List Char) (h : '&' ∉ xs) : splitAmp xs = [xs] := by
  induction xs with
  | nil => rfl
  | cons c cs ih =>
    have hc : c ≠ '&' := fun hh => h (hh ▸ List.mem_cons_self c cs)
    have hcs : '&' ∉ cs := fun hh => h (List.mem_cons_of_mem c hh)
    rw [splitAmp, if_neg hc, ih hcs]

/-- Splitting peels one ampersand-free field off the front. -/
theorem splitAmp_append (xs ys : List Char) (h : '&' ∉ xs) :
    splitAmp (xs ++ '&' :: ys) = xs :: splitAmp ys := by
  induction xs with
  | nil => simp [splitAmp]
  | cons c cs ih =>
    have hc : c ≠ '&' := fun hh => h (hh ▸ List.mem_cons_self c cs)
    have hcs : '&' ∉ cs := fun hh => h (List.mem_cons_of_mem c hh)
    rw [List.cons_append, splitAmp, if_neg hc, ih hcs]

/-- A field splits at its first `=`. -/
theorem splitFirstEq_append (xs ys : List Char) (h : '=' ∉ xs) :
    splitFirstEq (xs ++ '=' :: ys) = (xs, ys) := by
  induction xs with
  | nil => simp [splitFirstEq]
  | cons c cs ih =>
    have hc : c ≠ '=' := fun hh => h (hh ▸ List.mem_cons_self c cs)
    have hcs : '=' ∉ cs := fun hh => h (List.mem_cons_of_mem c hh)
    rw [List.cons_append, splitFirstEq, if_neg hc, ih hcs]

/-- The query is everything after the first `?`. -/
theorem queryAfter_append (xs ys : List Char) (h : '?' ∉ xs) :
    queryAfter (xs ++ '?' :: ys) = ys := by
  induction xs with
  | nil => simp [queryAfter]
  | cons c cs ih =>
    have hc : c ≠ '?' := fun hh => h (hh ▸ List.mem_cons_self c cs)
    have hcs : '?' ∉ cs := fun hh => h (List.mem_cons_of_mem c hh)
    rw [List.cons_append, queryAfter, if_neg hc, ih hcs]

/-- An encoded `key=value` field contains no ampersand. -/
theorem chunk_not_mem_amp (k v : String) :
    '&' ∉ percentEncodeL k.data ++ '=' :: percentEncodeL v.data := by
  intro hm
  rcases List.mem_append.mp hm with h | h
  · exact (percentEncodeL_not_mem k.data).1 h
  · rcases List.mem_cons.mp h with h | h
    · exact absurd h (by decide)
    · exact (percentEncodeL_not_mem v.data).1 h

/-- Unfolding one field of `urlencode` at the character level. -/
theorem urlencode_data (k v : String) (ps : List (String × String)) (hps : ps ≠ []) :
    (urlencode ((k, v) :: ps)).data =
      (percentEncodeL k.data ++ '=' :: percentEncodeL v.data) ++
        '&' :: (urlencode ps).data := by
  cases ps with
  | nil => exact absurd rfl hps
  | cons q qs =>
    show (percentEncode k ++ "=" ++ percentEncode v ++ "&" ++ urlencode (q :: qs)).data = _
    rw [String.data_append, String.data_append, String.data_append, String.data_append]
    simp [percentEncode]

/-- The single-field case of `urlencode` at the character level. -/
theorem urlencode_data_single (k v : String) :
    (urlencode [(k, v)]).data = percentEncodeL k.data ++ '=' :: percentEncodeL v.data := by
  show (percentEncode k ++ "=" ++ percentEncode v).data = _
  rw [String.data_append, String.data_append]
  simp [percentEncode]

/-- Splitting an `urlencode` output recovers exactly the encoded fields. -/
theorem splitAmp_urlencode (ps : List (String × String)) (hps : ps ≠ []) :
    splitAmp ((urlencode ps).data) =
      ps.map (fun p => percentEncodeL p.1.data ++ '=' :: percentEncodeL p.2.data) := by
  induction ps with
  | nil => exact absurd rfl hps
  | cons q qs ih =>
    cases qs with
    | nil =>
      rw [urlencode_data_single, splitAmp_no_amp _ (chunk_not_mem_amp q.1 q.2)]
      rfl
    | cons r rs =>
      rw [urlencode_data q.1 q.2 (r :: rs) (by simp),
        splitAmp_append _ _ (chunk_not_mem_amp q.1 q.2), ih (by simp)]
      rfl

/-- Parsing one encoded field recovers its decoded key and value. -/
theorem parseField_chunk (k v : String) :
    parseField (percentEncodeL k.data ++ '=' :: percentEncodeL v.data) =
      (String.mk (percentDecodeL (percentEncodeL k.data)),
       String.mk (percentDecodeL (percentEncodeL v.data))) := by
  unfold parseField
  rw [splitFirstEq_append _ _ (percentEncodeL_not_mem k.data).2]

/-- The decoded query parameters of a `base?urlencode(ps)` URL are the
decodings of the encoded pairs of `ps`. -/
theorem urlQueryParams_urlencode (base : String) (hbase : '?' ∉ base.data)
    (ps : List (String × String)) (hps : ps ≠ []) :
    urlQueryParams (base ++ "?" ++ urlencode ps) =
      ps.map (fun p => (String.mk (percentDecodeL (percentEncodeL p.1.data)),
        String.mk (percentDecodeL (percentEncodeL p.2.data)))) := by
  unfold urlQueryParams
  have hdata : (base ++ "?" ++ urlencode ps).data =
      base.data ++ '?' :: (urlencode ps).data := by
    rw [String.data_append, String.data_append]
    simp
  rw [hdata, queryAfter_append _ _ hbase, splitAmp_urlencode ps hps, List.map_map]
  apply List.map_congr_left
  intro p hp
  exact parseField_chunk p.1 p.2

/-- Supporting fact: for every non-empty `client_id`, `custom_tool.py`'s
`get_auth_url` builds a URL whose decoded `redirect_uri` query parameter is
byte-for-byte the configured redirect URI and whose `state` parameter is
present and non-empty. -/
theorem ct_get_auth_url_params (client_id : String) (h : client_id ≠ "") :
    ∃ url, get_auth_url client_id = .ok url ∧
      qlookup "redirect_uri" (urlQueryParams url) = some ct_redirect_uri ∧
      ∃ st, qlookup "state" (urlQueryParams url) = some st ∧ st ≠ "" := by
  refine ⟨linkedin_auth_endpoint ++ "?" ++
    urlencode [("response_type", "code"), ("client_id", client_id),
      ("redirect_uri", ct_redirect_uri), ("scope", ct_scope),
      ("state", "linkedin_auth")], ?_, ?_⟩
  · unfold get_auth_url
    rw [if_neg h]
  · have hq := urlQueryParams_urlencode linkedin_auth_endpoint (by decide)
      [("response_type", "code"), ("client_id", client_id),
        ("redirect_uri", ct_redirect_uri), ("scope", ct_scope),
        ("state", "linkedin_auth")] (by simp)
    rw [hq]
    simp only [List.map_cons, List.map_nil]
    rw [show String.mk (percentDecodeL (percentEncodeL ("response_type" : String).data)) = "response_type" from by decide]
    rw [show String.mk (percentDecodeL (percentEncodeL ("client_id" : String).data)) = "client_id" from by decide]
    rw [show String.mk (percentDecodeL (percentEncodeL ("redirect_uri" : String).data)) = "redirect_uri" from by decide]
    rw [show String.mk (percentDecodeL (percentEncodeL ct_redirect_uri.data)) = ct_redirect_uri from by decide]
    rw [show String.mk (percentDecodeL (percentEncodeL ("scope" : String).data)) = "scope" from by decide]
    rw [show String.mk (percentDecodeL (percentEncodeL ("state" : String).data)) = "state" from by decide]
    rw [show String.mk (percentDecodeL (percentEncodeL ("linkedin_auth" : String).data)) = "linkedin_auth" from by decide]
    constructor
    · simp only [qlookup]
      rw [if_neg (show ¬("response_type" : String) = "redirect_uri" from by decide)]
      rw [if_neg (show ¬("client_id" : String) = "redirect_uri" from by decide)]
      simp
    · refine ⟨"linkedin_auth", ?_, by decide⟩
      simp only [qlookup]
      rw [if_neg (show ¬("response_type" : String) = "state" from by decide)]
      rw [if_neg (show ¬("client_id" : String) = "state" from by decide)]
      rw [if_neg (show ¬("redirect_uri" : String) = "state" from by decide)]
      rw [if_neg (show ¬("scope" : String) = "state" from by decide)]
      simp

/-- C2 (divergence witness).  `app.py`'s `get_auth_url` echoes the
configured redirect URI but omits the `state` parameter entirely: for the
concrete client id `"id123"` the built URL parses to a query with no
`state` key at all, although `app.py`'s own callback handler then requires
`state == 'linkedin_auth'`. -/
theorem app_get_auth_url_no_state :
    qlookup "state" (urlQueryParams (app_get_auth_url "id123")) = none ∧
    qlookup "redirect_uri" (urlQueryParams (app_get_auth_url "id123")) =
      some app_redirect_uri := by
  constructor <;> decide
